import Mathlib

/-!
Shallow embedding of the WatchTower repository (calendar_watcher.py,
watchtower.py, hype_watcher.py, sentiment_summary.py, calender_watcher.py)
and proofs about the claims on its dedupe / phase / GC / gating logic.

Conventions of the embedding:
* instants are integers (epoch seconds for the calendar engine, epoch
  milliseconds for the watchtower engine, matching each script's unit);
* Python dicts that map dedupe keys to timestamps are association lists
  `List (String × Int)` with dict-style get/set (`dget` / `dset`);
* the md5/sha1 content hash is an explicit parameter `h : String → String`
  of every definition that hashes, so that facts relying on the hash being
  collision-free say so as a hypothesis (`Function.Injective h`);
* fallible external calls (Telegram POST) appear as explicit outcome
  arguments of type `Except String Unit`.
-/

/-- Dict lookup on an association list (Python `d.get(k)` / `k in d`). -/
def dget : List (String × Int) → String → Option Int
  | [], _ => none
  | kv :: rest, k => if kv.1 = k then some kv.2 else dget rest k

/-- Dict assignment `d[k] = v`: replace in place if present, else append. -/
def dset (m : List (String × Int)) (k : String) (v : Int) : List (String × Int) :=
  match m with
  | [] => [(k, v)]
  | kv :: rest => if kv.1 = k then (k, v) :: rest else kv :: dset rest k v

namespace Cal

/-- calendar_watcher.py `MAJORS`. -/
def MAJORS : List String := ["CPI", "PCE", "PPI", "GDP", "NFP", "FOMC"]

/-- calendar_watcher.py `T4D_MINUTES = 4 * 24 * 60`. -/
def T4D_MINUTES : Int := 4 * 24 * 60

/-- calendar_watcher.py `T90_MINUTES = 90`. -/
def T90_MINUTES : Int := 90

/-- One event dict produced by the scrapers/rules:
`{"name": ..., "dt": ..., "source": ..., "impact": ...}`;
`dt` is an instant in epoch seconds (UTC). -/
structure CalEvent where
  name : String
  dt : Int
  source : String
  impact : String

/-- calendar_watcher.py `minutes_until`: `int((dt - ref).total_seconds() // 60)`
(Python `//` is floor division, hence `Int.fdiv`). -/
def minutes_until (dt ref : Int) : Int := Int.fdiv (dt - ref) 60

/-- The pre-image string fed to md5 for a phase's dedupe key:
`f"{ev['name']}|{ev['dt'].isoformat()}|{phase}"`; the isoformat rendering of
the timestamp is modelled by `toString` of the epoch instant. -/
def calKeyStr (ev : CalEvent) (phase : String) : String :=
  ev.name ++ "|" ++ toString ev.dt ++ "|" ++ phase

/-- The dedupe key: `md5(...)`, with the hash an explicit parameter. -/
def calKey (h : String → String) (ev : CalEvent) (phase : String) : String :=
  h (calKeyStr ev phase)

/-- The persisted state of calendar_watcher.py: `{"sent": {key: ms, ...}}`. -/
structure CalState where
  sent : List (String × Int)

/-- calendar_watcher.py `already_sent`: `key in st.get("sent", {})`. -/
def already_sent (st : CalState) (key : String) : Bool :=
  (dget st.sent key).isSome

/-- calendar_watcher.py `mark_sent`: `st["sent"][key] = int(now*1000)`
(the stored value is milliseconds, the run clock is seconds). -/
def mark_sent (st : CalState) (key : String) (nowMs : Int) : CalState :=
  ⟨dset st.sent key nowMs⟩

/-- calendar_watcher.py `alert_T4d`: majors only, fires when
`0 < minutes_until <= T4D_MINUTES` and the key was not already sent; on fire
it sends (best effort) and marks the key. Returns (fired, new state). -/
def alert_T4d (h : String → String) (now : Int) (ev : CalEvent) (st : CalState) :
    Bool × CalState :=
  if ev.name ∈ MAJORS then
    if 0 < minutes_until ev.dt now ∧ minutes_until ev.dt now ≤ T4D_MINUTES then
      if already_sent st (calKey h ev "T-4d") then (false, st)
      else (true, mark_sent st (calKey h ev "T-4d") (1000 * now))
    else (false, st)
  else (false, st)

/-- calendar_watcher.py `alert_T90`: all events, window
`0 < minutes_until <= T90_MINUTES`, dedupe-gated, marks on fire. -/
def alert_T90 (h : String → String) (now : Int) (ev : CalEvent) (st : CalState) :
    Bool × CalState :=
  if 0 < minutes_until ev.dt now ∧ minutes_until ev.dt now ≤ T90_MINUTES then
    if already_sent st (calKey h ev "T-90m") then (false, st)
    else (true, mark_sent st (calKey h ev "T-90m") (1000 * now))
  else (false, st)

/-- One iteration of the loop body of `run_once`: skip past events, then
`alert_T4d` first and `alert_T90` second.  Returns the list of dedupe keys
fired at this event (the instrumented counterpart of the `fired` counter,
one entry per send) together with the updated state. -/
def calStep (h : String → String) (now : Int) (st : CalState) (ev : CalEvent) :
    List String × CalState :=
  if ev.dt ≤ now then ([], st)
  else
    match alert_T4d h now ev st with
    | (f1, st1) =>
      match alert_T90 h now ev st1 with
      | (f2, st2) =>
        ((if f1 then [calKey h ev "T-4d"] else []) ++
         (if f2 then [calKey h ev "T-90m"] else []), st2)

/-- calendar_watcher.py `run_once` over an already-built event list, with the
fired keys traced: folds `calStep` and ends with `save_state`
(persistence itself is best-effort and is the identity on the state). -/
def run_onceT (h : String → String) (now : Int) :
    List CalEvent → CalState → List String × CalState
  | [], st => ([], st)
  | ev :: rest, st =>
    match calStep h now st ev with
    | (tr, st1) =>
      match run_onceT h now rest st1 with
      | (tr', st2) => (tr ++ tr', st2)

/-- The state persisted at the end of `run_once` (no GC exists in this
script: the saved state is exactly the folded state). -/
def run_once (h : String → String) (now : Int) (evs : List CalEvent)
    (st : CalState) : CalState :=
  (run_onceT h now evs st).2

end Cal

/-- A JSON value, as far as the two state files need: numbers, strings,
arrays and objects. -/
inductive Jsonish where
  | num (n : Int)
  | str (s : String)
  | arr (xs : List Jsonish)
  | obj (fields : List (String × Jsonish))

namespace StateFile

/-- The value calendar_watcher.py `load_state` falls back to: `{"sent": {}}`. -/
def calFreshState : Jsonish := .obj [("sent", .obj [])]

/-- The fresh state of watchtower.py `load_state` (and of spec §6):
`{"sent": {}, "last_gc": 0}`. -/
def wtFreshState : Jsonish := .obj [("sent", .obj []), ("last_gc", .num 0)]

/-- calendar_watcher.py `load_state`, with the file system explicit:
`none` = file missing (`p.exists()` false), `some none` = read or JSON parse
failure, `some (some j)` = the parsed JSON value, returned without any schema
check. Total: loading never raises. -/
def calendar_load_state (file : Option (Option Jsonish)) : Jsonish :=
  match file with
  | none => calFreshState
  | some none => calFreshState
  | some (some j) => j

/-- watchtower.py `load_state`: one `try` around open+`json.load`, so
`none` = missing or unreadable file or invalid JSON; a successfully parsed
value is returned without any schema check. Total: loading never raises. -/
def watchtower_load_state (file : Option Jsonish) : Jsonish :=
  match file with
  | none => wtFreshState
  | some j => j

end StateFile

namespace Wt

/-- watchtower.py `RECENT_HOURS = 24`. -/
def RECENT_HOURS : Int := 24

/-- watchtower.py `DEDUPE_HOURS = 12`. -/
def DEDUPE_HOURS : Int := 12

/-- watchtower.py `IMPACT_THRESHOLD = 9`. -/
def IMPACT_THRESHOLD : Int := 9

/-- watchtower.py `h_to_ms`: hours to milliseconds. -/
def h_to_ms (h : Int) : Int := h * 3600 * 1000

/-- One feed entry, as far as watchtower.py reads it.  `published_parsed` /
`updated_parsed` model the feedparser struct_time fields already converted
to epoch milliseconds (a present-but-unconvertible struct_time behaves like
an absent one); `dateStrings` models, in order, the parse results of the
`published`/`updated`/`pubDate`/`date` string fields (`none` = field absent,
not a string, or unparsable). -/
structure Entry where
  title : String
  link : String
  summary : String
  published_parsed : Option Int
  updated_parsed : Option Int
  dateStrings : List (Option Int)

/-- The string-field fallback loop of `parse_pub_ms`: first parsable date
wins, otherwise 0. -/
def firstParsedDate : List (Option Int) → Int
  | [] => 0
  | some v :: _ => v
  | none :: rest => firstParsedDate rest

/-- watchtower.py `parse_pub_ms`: `published_parsed or updated_parsed` first,
then the string fields, else the sentinel 0. -/
def parse_pub_ms (e : Entry) : Int :=
  match e.published_parsed with
  | some t => t
  | none =>
    match e.updated_parsed with
    | some t => t
    | none => firstParsedDate e.dateStrings

/-- watchtower.py `is_recent`: the sentinel 0 is always treated as recent
("when unknown, don't throw away"); otherwise age at most RECENT_HOURS. -/
def is_recent (now pub : Int) : Bool :=
  if pub = 0 then true
  else decide (now - pub ≤ h_to_ms RECENT_HOURS)

/-- Whether the first list is an initial segment of the second. -/
def startsWithChars : List Char → List Char → Bool
  | [], _ => true
  | _ :: _, [] => false
  | a :: as, b :: bs => a == b && startsWithChars as bs

/-- Whether the first list occurs contiguously inside the second. -/
def containsChars : List Char → List Char → Bool
  | needle, [] => needle.isEmpty
  | needle, c :: rest =>
    startsWithChars needle (c :: rest) || containsChars needle rest

/-- Python `needle in hay` on strings. -/
def pyIn (needle hay : String) : Bool :=
  containsChars needle.data hay.data

/-- Python `s.lower()` (ASCII case folding, as the scored keywords need). -/
def pyLower (s : String) : String :=
  ⟨s.data.map Char.toLower⟩

/-- `List.dropWhile` on characters, for `strip`. -/
def dropWhileChars (p : Char → Bool) : List Char → List Char
  | [] => []
  | c :: rest => if p c then dropWhileChars p rest else c :: rest

/-- Python `s.strip()`: whitespace removed from both ends. -/
def pyStrip (s : String) : String :=
  ⟨(dropWhileChars Char.isWhitespace
      (dropWhileChars Char.isWhitespace s.data).reverse).reverse⟩

/-- `any(k in t for k in keys)`. -/
def anyIn (keys : List String) (t : String) : Bool :=
  keys.any (fun k => pyIn k t)

/-- watchtower.py `score_event`: additive keyword bumps, clamped to 0..20. -/
def score_event (text srcLabel : String) : Int :=
  let t := Wt.pyLower text
  let lbl := Wt.pyLower srcLabel
  let s : Int :=
    (if anyIn ["sec", "cftc", "federal reserve", "bls"] lbl then 4 else 0)
    + (if anyIn ["cpi", "pce"] t then 4 else 0)
    + (if anyIn ["fomc", "powell", "rate", "interest rate", "minutes"] t then 4 else 0)
    + (if anyIn ["sec", "cftc", "ftc", "ofac", "treasury"] t then 3 else 0)
    + (if anyIn ["etf", "outflow", "inflow"] t then 3 else 0)
    + (if anyIn ["hack", "exploit", "breach", "security incident"] t then 5 else 0)
    + (if anyIn ["outage", "downtime", "halt", "suspend"] t then 4 else 0)
    + (if anyIn ["delist", "insolvency", "bankruptcy", "liquidation"] t then 3 else 0)
    + (if anyIn ["binance", "coinbase", "kraken", "tether", "usdt", "circle", "usdc",
                 "microstrategy", "blackrock", "fidelity"] t then 2 else 0)
  max 0 (min 20 s)

/-- watchtower.py `send_telegram`: the POST outcome is swallowed by the
inner `try`/`except: pass`, so the call returns regardless. -/
def send_telegram (postResult : Except String Unit) : Unit :=
  match postResult with
  | .ok _ => ()
  | .error _ => ()

/-- What became of one feed entry inside `main`'s item loop. -/
inductive Verdict where
  | skippedOld | deduped | alerted | belowThreshold
deriving DecidableEq

/-- The dedupe uid of an item: `md5(f"{label}|{title}|{link}")` on the
stripped title/link, hash explicit. -/
def wtUid (h : String → String) (label title link : String) : String :=
  h (label ++ "|" ++ title ++ "|" ++ link)

/-- The body of watchtower.py `main`'s inner loop for one entry: recency
filter, dedupe gate (`if last_ts and (now - last_ts) <= h_to_ms(DEDUPE_HOURS)`
— note a stored 0 is falsy and does not dedupe), scoring, and on an alert the
best-effort dispatch followed unconditionally by `sent[uid] = now`. -/
def processItem (h : String → String) (now : Int) (sent : List (String × Int))
    (label : String) (e : Entry) (postResult : Except String Unit) :
    Verdict × List (String × Int) :=
  let title := pyStrip e.title
  let link := pyStrip e.link
  let summary := pyStrip e.summary
  let pub := parse_pub_ms e
  if is_recent now pub = false then (.skippedOld, sent)
  else
    let uid := wtUid h label title link
    let dedupeHit :=
      match dget sent uid with
      | some ts => decide (ts ≠ 0) && decide (now - ts ≤ h_to_ms DEDUPE_HOURS)
      | none => false
    if dedupeHit then (.deduped, sent)
    else
      let sc := score_event (title ++ " " ++ summary) label
      if IMPACT_THRESHOLD ≤ sc then
        let _ := send_telegram postResult
        (.alerted, dset sent uid now)
      else (.belowThreshold, sent)

/-- The garbage-collection sweep at the end of watchtower.py `main`: drop
every entry strictly older than the retention horizon
(`now - ts > retention`), keep the rest. -/
def gcSweep (sent : List (String × Int)) (now retention : Int) :
    List (String × Int) :=
  sent.filter (fun kv => decide (now - kv.2 ≤ retention))

/-- The persisted state of watchtower.py: `{"sent": ..., "last_gc": ...}`. -/
structure WtState where
  sent : List (String × Int)
  last_gc : Int

/-- watchtower.py `main` end to end over already-fetched feeds: fold the
item loop over every source's entries, then unconditionally sweep with
retention `h_to_ms DEDUPE_HOURS`, stamp `last_gc`, and persist. -/
def wtRun (h : String → String) (now : Int) (st : WtState)
    (feeds : List (String × List Entry)) (post : Entry → Except String Unit) :
    WtState :=
  let sent1 := feeds.foldl
    (fun acc f => f.2.foldl (fun a e => (processItem h now a f.1 e (post e)).2) acc)
    st.sent
  { sent := gcSweep sent1 now (h_to_ms DEDUPE_HOURS), last_gc := now }

end Wt

namespace Hype

/-- hype_watcher.py `MIN_SCORE_TO_ALERT = 0.35` (scores are floats in 0..1,
modelled as rationals). -/
def MIN_SCORE_TO_ALERT : ℚ := 35 / 100

/-- hype_watcher.py `MAX_ITEMS_PER_RUN = 5`. -/
def MAX_ITEMS_PER_RUN : Nat := 5

/-- hype_watcher.py `RECENT_HOURS = 6` (lookback for the item cutoff
`cutoff = now - RECENT_HOURS*3600`, in seconds). -/
def RECENT_HOURS : Int := 6

/-- One scored item of hype_watcher.py `run`, as far as the send loop reads
it: the sha1 uid (computed upstream from title|link) and the final score. -/
structure Item where
  uid : String
  score : ℚ

/-- hype_watcher.py `parse_when`: published_parsed, else updated_parsed,
else `now_utc()` (instants as epoch seconds). -/
def parse_when (now : Int) (published_parsed updated_parsed : Option Int) : Int :=
  match published_parsed with
  | some t => t
  | none =>
    match updated_parsed with
    | none => now
    | some t => t

/-- The send loop of hype_watcher.py `run` over the ranked items:
skip items below threshold, `break` at the cap, and on dispatch success add
the uid to `seen` and bump `sent`; a raising dispatch is caught and the loop
continues with `seen` unchanged.  `dispatch` gives each send's outcome.
Returns (sent count, seen). -/
def sendLoop (dispatch : Item → Bool) :
    List Item → Nat → List String → Nat × List String
  | [], sentCount, seen => (sentCount, seen)
  | it :: rest, sentCount, seen =>
    if it.score < MIN_SCORE_TO_ALERT then sendLoop dispatch rest sentCount seen
    else if MAX_ITEMS_PER_RUN ≤ sentCount then (sentCount, seen)
    else if dispatch it then sendLoop dispatch rest (sentCount + 1) (it.uid :: seen)
    else sendLoop dispatch rest sentCount seen

end Hype

namespace Senti

/-- sentiment_summary.py `MIN_MENTIONS_PER_COIN = 4`. -/
def MIN_MENTIONS_PER_COIN : Nat := 4

/-- sentiment_summary.py `STRONG_THRESHOLD_PCT = 75`. -/
def STRONG_THRESHOLD_PCT : Nat := 75

/-- Per-coin label counts accumulated over one run's lookback window; the
loop bumps exactly one label and `total` together, so `total` is the sum. -/
structure CoinCounts where
  bull : Nat
  bear : Nat
  neutral : Nat

/-- `counts[sym]["total"]`. -/
def total (c : CoinCounts) : Nat := c.bull + c.bear + c.neutral

/-- Python `int(round(100.0 * b / t))`: round to nearest, ties to even
(the float quotient is exact at every reachable tie). -/
def pyRound100 (b t : Nat) : Nat :=
  let q := (100 * b) / t
  let r := (100 * b) % t
  if 2 * r < t then q
  else if t < 2 * r then q + 1
  else if q % 2 = 0 then q else q + 1

/-- sentiment_summary.py `bull_pct = int(round(100.0 * c["bull"] / total))`. -/
def bull_pct (c : CoinCounts) : Nat := pyRound100 c.bull (total c)

/-- sentiment_summary.py `bear_pct`. -/
def bear_pct (c : CoinCounts) : Nat := pyRound100 c.bear (total c)

/-- The line appended for one coin by the summary builder: skip below the
mention floor, else a bullish line if `bull_pct >= 75`, elif a bearish line
if `bear_pct >= 75`, else nothing.  `some (true, pct)` = bullish line,
`some (false, pct)` = bearish line. -/
def gateReport (c : CoinCounts) : Option (Bool × Nat) :=
  if total c < MIN_MENTIONS_PER_COIN then none
  else if STRONG_THRESHOLD_PCT ≤ bull_pct c then some (true, bull_pct c)
  else if STRONG_THRESHOLD_PCT ≤ bear_pct c then some (false, bear_pct c)
  else none

/-- Whether the aggregate gate fires for one coin. -/
def gateFires (c : CoinCounts) : Bool :=
  (gateReport c).isSome

end Senti

namespace Startup

/-- Python truthiness of an environment read: `os.getenv` gives None when
unset, and `not s` is also true for an empty string. -/
def truthy : Option String → Bool
  | none => false
  | some s => !(s = "")

/-- calendar_watcher.py module top:
`if not BOT or not CHAT: raise SystemExit(...)`, before any I/O. -/
def calendar_startup (bot chat : Option String) : Except String Unit :=
  if !truthy bot || !truthy chat then
    .error "Missing TELEGRAM_BOT_TOKEN / TELEGRAM_CHAT_ID"
  else .ok ()

/-- watchtower.py module top: `raise RuntimeError(...)` on the same test. -/
def watchtower_startup (bot chat : Option String) : Except String Unit :=
  if !truthy bot || !truthy chat then
    .error "Missing TELEGRAM_BOT_TOKEN / TELEGRAM_CHAT_ID env vars"
  else .ok ()

/-- hype_watcher.py / sentiment_summary.py module top: two `assert`s. -/
def hype_startup (bot chat : Option String) : Except String Unit :=
  if !truthy bot then .error "Missing TELEGRAM_BOT_TOKEN secret"
  else if !truthy chat then .error "Missing TELEGRAM_CHAT_ID secret"
  else .ok ()

/-- calender_watcher.py (legacy) module top: the two `os.getenv` reads with
no presence check of any kind — startup always succeeds. -/
def legacy_startup (bot chat : Option String) :
    Except String (Option String × Option String) :=
  .ok (bot, chat)

/-- Python str() of an optional value inside an f-string: None prints as
"None". -/
def pyStr : Option String → String
  | none => "None"
  | some s => s

/-- The URL calender_watcher.py `send_telegram` posts to:
`f"https://api.telegram.org/bot{TELEGRAM_BOT_TOKEN}/sendMessage"`. -/
def legacy_send_url (bot : Option String) : String :=
  "https://api.telegram.org/bot" ++ pyStr bot ++ "/sendMessage"

/-- A fatal startup outcome. -/
def failsFatal {α : Type} : Except String α → Bool
  | .error _ => true
  | .ok _ => false

end Startup

/-! ## Association-list dictionary lemmas -/

theorem dget_dset_self (m : List (String × Int)) (k : String) (v : Int) :
    dget (dset m k v) k = some v := by
  induction m with
  | nil => simp [dset, dget]
  | cons kv rest ih =>
    by_cases h : kv.1 = k
    · simp [dset, h, dget]
    · simp [dset, h, dget, ih]

theorem dget_dset_of_ne (m : List (String × Int)) (k : String) (v : Int)
    (k' : String) (h : k ≠ k') : dget (dset m k v) k' = dget m k' := by
  induction m with
  | nil => simp [dset, dget, h]
  | cons kv rest ih =>
    by_cases hk : kv.1 = k
    · have hne : ¬kv.1 = k' := fun hh => h (hk.symm.trans hh)
      simp only [dset, if_pos hk, dget, if_neg h, if_neg hne]
    · simp only [dset, if_neg hk, dget, ih]

theorem isSome_dget_dset (m : List (String × Int)) (k : String) (v : Int)
    (k' : String) (hs : (dget m k').isSome) :
    (dget (dset m k v) k').isSome := by
  by_cases h : k = k'
  · subst h; simp [dget_dset_self]
  · rwa [dget_dset_of_ne m k v k' h]

/-! ## Calendar alert characterizations -/

theorem alert_T4d_fired_iff (h : String → String) (now : Int)
    (ev : Cal.CalEvent) (st : Cal.CalState) :
    (Cal.alert_T4d h now ev st).1 = true ↔
      (ev.name ∈ Cal.MAJORS ∧ 0 < Cal.minutes_until ev.dt now ∧
        Cal.minutes_until ev.dt now ≤ Cal.T4D_MINUTES) ∧
      dget st.sent (Cal.calKey h ev "T-4d") = none := by
  unfold Cal.alert_T4d Cal.already_sent
  split_ifs with h1 h2 h3 <;>
    simp_all [Option.isSome_iff_ne_none]

theorem alert_T4d_state_fired (h : String → String) (now : Int)
    (ev : Cal.CalEvent) (st : Cal.CalState)
    (hf : (Cal.alert_T4d h now ev st).1 = true) :
    (Cal.alert_T4d h now ev st).2 =
      Cal.mark_sent st (Cal.calKey h ev "T-4d") (1000 * now) := by
  unfold Cal.alert_T4d at hf ⊢
  split_ifs at hf ⊢ <;> simp_all

theorem alert_T4d_state_not_fired (h : String → String) (now : Int)
    (ev : Cal.CalEvent) (st : Cal.CalState)
    (hf : (Cal.alert_T4d h now ev st).1 = false) :
    (Cal.alert_T4d h now ev st).2 = st := by
  unfold Cal.alert_T4d at hf ⊢
  split_ifs at hf ⊢ <;> simp_all

theorem alert_T90_fired_iff (h : String → String) (now : Int)
    (ev : Cal.CalEvent) (st : Cal.CalState) :
    (Cal.alert_T90 h now ev st).1 = true ↔
      (0 < Cal.minutes_until ev.dt now ∧
        Cal.minutes_until ev.dt now ≤ Cal.T90_MINUTES) ∧
      dget st.sent (Cal.calKey h ev "T-90m") = none := by
  unfold Cal.alert_T90 Cal.already_sent
  split_ifs with h1 h2 <;>
    simp_all [Option.isSome_iff_ne_none]

theorem alert_T90_state_fired (h : String → String) (now : Int)
    (ev : Cal.CalEvent) (st : Cal.CalState)
    (hf : (Cal.alert_T90 h now ev st).1 = true) :
    (Cal.alert_T90 h now ev st).2 =
      Cal.mark_sent st (Cal.calKey h ev "T-90m") (1000 * now) := by
  unfold Cal.alert_T90 at hf ⊢
  split_ifs at hf ⊢ <;> simp_all

theorem alert_T90_state_not_fired (h : String → String) (now : Int)
    (ev : Cal.CalEvent) (st : Cal.CalState)
    (hf : (Cal.alert_T90 h now ev st).1 = false) :
    (Cal.alert_T90 h now ev st).2 = st := by
  unfold Cal.alert_T90 at hf ⊢
  split_ifs at hf ⊢ <;> simp_all

/-- One orchestrator step: a key already recorded is never in the step's
fired trace and stays recorded; a key fired by the step is recorded
afterwards; and no key is fired twice within the step. -/
theorem calStep_trace_spec (h : String → String) (now : Int)
    (st : Cal.CalState) (ev : Cal.CalEvent) (k : String) :
    ((dget st.sent k).isSome →
      k ∉ (Cal.calStep h now st ev).1 ∧
      (dget (Cal.calStep h now st ev).2.sent k).isSome) ∧
    (k ∈ (Cal.calStep h now st ev).1 →
      (dget (Cal.calStep h now st ev).2.sent k).isSome) ∧
    (Cal.calStep h now st ev).1.count k ≤ 1 := by
  unfold Cal.calStep
  by_cases hpast : ev.dt ≤ now
  · simp [hpast]
  · simp only [if_neg hpast]
    rcases hA : Cal.alert_T4d h now ev st with ⟨f1, st1⟩
    rcases hB : Cal.alert_T90 h now ev st1 with ⟨f2, st2⟩
    have hA1 : (Cal.alert_T4d h now ev st).1 = f1 := by rw [hA]
    have hA2 : (Cal.alert_T4d h now ev st).2 = st1 := by rw [hA]
    have hB1 : (Cal.alert_T90 h now ev st1).1 = f2 := by rw [hB]
    have hB2 : (Cal.alert_T90 h now ev st1).2 = st2 := by rw [hB]
    cases f1 with
    | false =>
      have e1 : st1 = st := by
        rw [← hA2]; exact alert_T4d_state_not_fired h now ev st hA1
      cases f2 with
      | false =>
        have e2 : st2 = st1 := by
          rw [← hB2]; exact alert_T90_state_not_fired h now ev st1 hB1
        subst e2; subst e1
        simp
      | true =>
        have hkey90 : dget st1.sent (Cal.calKey h ev "T-90m") = none :=
          ((alert_T90_fired_iff h now ev st1).mp hB1).2
        have e2 : st2 = Cal.mark_sent st1 (Cal.calKey h ev "T-90m") (1000 * now) := by
          rw [← hB2]; exact alert_T90_state_fired h now ev st1 hB1
        subst e1
        simp only [eq_self_iff_true, Bool.false_eq_true, if_true, if_false,
          List.nil_append, List.mem_singleton, List.count_singleton]
        refine ⟨?_, ?_, ?_⟩
        · intro hsk
          constructor
          · intro hEq
            rw [hEq, hkey90] at hsk
            simp at hsk
          · rw [e2]
            exact isSome_dget_dset _ _ _ _ hsk
        · intro hm
          rw [e2, Cal.mark_sent, hm, dget_dset_self]
          rfl
        · split <;> omega
    | true =>
      have hkey4 : dget st.sent (Cal.calKey h ev "T-4d") = none :=
        ((alert_T4d_fired_iff h now ev st).mp hA1).2
      have e1 : st1 = Cal.mark_sent st (Cal.calKey h ev "T-4d") (1000 * now) := by
        rw [← hA2]; exact alert_T4d_state_fired h now ev st hA1
      cases f2 with
      | false =>
        have e2 : st2 = st1 := by
          rw [← hB2]; exact alert_T90_state_not_fired h now ev st1 hB1
        subst e2
        simp only [eq_self_iff_true, Bool.false_eq_true, if_true, if_false,
          List.append_nil, List.mem_singleton, List.count_singleton]
        refine ⟨?_, ?_, ?_⟩
        · intro hsk
          constructor
          · intro hEq
            rw [hEq, hkey4] at hsk
            simp at hsk
          · rw [e1]
            exact isSome_dget_dset _ _ _ _ hsk
        · intro hm
          rw [e1, Cal.mark_sent, hm, dget_dset_self]
          rfl
        · split <;> omega
      | true =>
        have hkey90 : dget st1.sent (Cal.calKey h ev "T-90m") = none :=
          ((alert_T90_fired_iff h now ev st1).mp hB1).2
        have e2 : st2 = Cal.mark_sent st1 (Cal.calKey h ev "T-90m") (1000 * now) := by
          rw [← hB2]; exact alert_T90_state_fired h now ev st1 hB1
        have hne : Cal.calKey h ev "T-4d" ≠ Cal.calKey h ev "T-90m" := by
          intro hEq
          rw [e1, Cal.mark_sent, ← hEq, dget_dset_self] at hkey90
          simp at hkey90
        simp only [eq_self_iff_true, if_true, List.cons_append, List.nil_append,
          List.mem_cons, List.mem_singleton]
        refine ⟨?_, ?_, ?_⟩
        · intro hsk
          have hsk1 : (dget st1.sent k).isSome := by
            rw [e1]; exact isSome_dget_dset _ _ _ _ hsk
          constructor
          · rintro (hEq | hEq | h0)
            · rw [hEq, hkey4] at hsk
              simp at hsk
            · rw [hEq, hkey90] at hsk1
              simp at hsk1
            · simp at h0
          · rw [e2]
            exact isSome_dget_dset _ _ _ _ hsk1
        · rintro (hm | hm | h0)
          · rw [e2, Cal.mark_sent, hm,
              dget_dset_of_ne _ _ _ _ (fun hh => hne hh.symm),
              e1, Cal.mark_sent, dget_dset_self]
            rfl
          · rw [e2, Cal.mark_sent, hm, dget_dset_self]
            rfl
          · simp at h0
        · by_cases h4 : k = Cal.calKey h ev "T-4d"
          · have h9 : ¬(k = Cal.calKey h ev "T-90m") := fun hh =>
              hne (h4.symm.trans hh)
            simp [List.count_cons, h4, h9, hne]
          · by_cases h9 : k = Cal.calKey h ev "T-90m" <;>
              simp [List.count_cons, h4, h9, hne]

/-- Whole-run trace invariant for the calendar engine: a recorded key is
never fired and stays recorded; a fired key is recorded at run end; no key
fires twice within one run. -/
theorem run_onceT_spec (h : String → String) (now : Int)
    (evs : List Cal.CalEvent) (st : Cal.CalState) (k : String) :
    ((dget st.sent k).isSome →
      k ∉ (Cal.run_onceT h now evs st).1 ∧
      (dget (Cal.run_onceT h now evs st).2.sent k).isSome) ∧
    (k ∈ (Cal.run_onceT h now evs st).1 →
      (dget (Cal.run_onceT h now evs st).2.sent k).isSome) ∧
    (Cal.run_onceT h now evs st).1.count k ≤ 1 := by
  induction evs generalizing st with
  | nil => simp [Cal.run_onceT]
  | cons ev rest ih =>
    rcases hS : Cal.calStep h now st ev with ⟨tr, st1⟩
    rcases hR : Cal.run_onceT h now rest st1 with ⟨tr', st2⟩
    have hstep1 : (dget st.sent k).isSome → k ∉ tr ∧ (dget st1.sent k).isSome := by
      have hh := calStep_trace_spec h now st ev k
      rw [hS] at hh
      exact hh.1
    have hstep2 : k ∈ tr → (dget st1.sent k).isSome := by
      have hh := calStep_trace_spec h now st ev k
      rw [hS] at hh
      exact hh.2.1
    have hstep3 : tr.count k ≤ 1 := by
      have hh := calStep_trace_spec h now st ev k
      rw [hS] at hh
      exact hh.2.2
    have hrec1 : (dget st1.sent k).isSome →
        k ∉ tr' ∧ (dget st2.sent k).isSome := by
      have hh := ih st1
      rw [hR] at hh
      exact hh.1
    have hrec2 : k ∈ tr' → (dget st2.sent k).isSome := by
      have hh := ih st1
      rw [hR] at hh
      exact hh.2.1
    have hrec3 : tr'.count k ≤ 1 := by
      have hh := ih st1
      rw [hR] at hh
      exact hh.2.2
    have hgoal : Cal.run_onceT h now (ev :: rest) st = (tr ++ tr', st2) := by
      simp only [Cal.run_onceT, hS, hR]
    rw [hgoal]
    refine ⟨?_, ?_, ?_⟩
    · intro hsk
      obtain ⟨hnt, hs1⟩ := hstep1 hsk
      obtain ⟨hnt', hs2⟩ := hrec1 hs1
      exact ⟨by simp [hnt, hnt'], hs2⟩
    · intro hm
      rcases List.mem_append.mp hm with hm | hm
      · exact (hrec1 (hstep2 hm)).2
      · exact hrec2 hm
    · rw [List.count_append]
      by_cases hsk : (dget st.sent k).isSome
      · obtain ⟨hnt, hs1⟩ := hstep1 hsk
        obtain ⟨hnt', _⟩ := hrec1 hs1
        simp [List.count_eq_zero.mpr hnt, List.count_eq_zero.mpr hnt']
      · by_cases hmem : k ∈ tr
        · have hs1 := hstep2 hmem
          have hnt' := (hrec1 hs1).1
          have := List.count_eq_zero.mpr hnt'
          omega
        · have := List.count_eq_zero.mpr hmem
          omega

/-- C1: once a phase's dedupe key is recorded in the sent map, a run in
which it is still present never fires it again and keeps it recorded;
a key fired in a run is recorded in the persisted state; hence across two
successive full runs with the persisted state carried over, every
(event, phase) dedupe key is fired at most once. -/
theorem C1_idempotent_two_runs (h : String → String) (now1 now2 : Int)
    (evs1 evs2 : List Cal.CalEvent) (st0 : Cal.CalState) (k : String) :
    (Cal.already_sent st0 k = true → k ∉ (Cal.run_onceT h now1 evs1 st0).1) ∧
    (k ∈ (Cal.run_onceT h now1 evs1 st0).1 →
      Cal.already_sent (Cal.run_once h now1 evs1 st0) k = true) ∧
    ((Cal.run_onceT h now1 evs1 st0).1 ++
      (Cal.run_onceT h now2 evs2 (Cal.run_once h now1 evs1 st0)).1).count k ≤ 1 := by
  have spec1 := run_onceT_spec h now1 evs1 st0 k
  have spec2 := run_onceT_spec h now2 evs2 (Cal.run_once h now1 evs1 st0) k
  refine ⟨?_, ?_, ?_⟩
  · intro hrec
    exact (spec1.1 (by simpa [Cal.already_sent] using hrec)).1
  · intro hm
    have := spec1.2.1 hm
    simpa [Cal.already_sent, Cal.run_once] using this
  · rw [List.count_append]
    by_cases hmem : k ∈ (Cal.run_onceT h now1 evs1 st0).1
    · have hs1 : (dget (Cal.run_once h now1 evs1 st0).sent k).isSome := by
        simpa [Cal.run_once] using spec1.2.1 hmem
      have hnt2 := (spec2.1 hs1).1
      have := spec1.2.2
      simp [List.count_eq_zero.mpr hnt2]
      omega
    · simp [List.count_eq_zero.mpr hmem]
      exact spec2.2.2

/-- C1 witness: a key already in the sent map is not fired by a run; the
heads-up key fired by a concrete run is recorded afterwards; and across two
successive runs over the same one-event list the heads-up key fires at most
once. -/
theorem C1_idempotent_two_runs_witness :
    ("K" ∉ (Cal.run_onceT id 0 [⟨"NFP", 5400, "Rule", "high"⟩] ⟨[("K", 0)]⟩).1) ∧
    (Cal.already_sent
      (Cal.run_once id 0 [⟨"NFP", 5400, "Rule", "high"⟩] ⟨[]⟩)
      "NFP|5400|T-4d" = true) ∧
    (((Cal.run_onceT id 0 [⟨"NFP", 5400, "Rule", "high"⟩] ⟨[]⟩).1 ++
      (Cal.run_onceT id 0 [⟨"NFP", 5400, "Rule", "high"⟩]
        (Cal.run_once id 0 [⟨"NFP", 5400, "Rule", "high"⟩] ⟨[]⟩)).1).count
      "NFP|5400|T-4d" ≤ 1) :=
  ⟨(C1_idempotent_two_runs id 0 0 [⟨"NFP", 5400, "Rule", "high"⟩] []
      ⟨[("K", 0)]⟩ "K").1 (by decide),
   (C1_idempotent_two_runs id 0 0 [⟨"NFP", 5400, "Rule", "high"⟩] []
      ⟨[]⟩ "NFP|5400|T-4d").2.1 (by decide),
   (C1_idempotent_two_runs id 0 0 [⟨"NFP", 5400, "Rule", "high"⟩]
      [⟨"NFP", 5400, "Rule", "high"⟩] ⟨[]⟩ "NFP|5400|T-4d").2.2⟩

/-- An event strictly inside a future-looking window has not passed yet. -/
theorem minutes_pos_not_past (dt ref : Int)
    (hp : 0 < Cal.minutes_until dt ref) : ¬dt ≤ ref := by
  unfold Cal.minutes_until at hp
  rw [Int.fdiv_eq_ediv _ (by norm_num)] at hp
  omega

/-- C3: the dedupe key is a deterministic function of (event name, event
timestamp, phase name) — events equal in identity give equal keys even when
other fields differ; with a collision-free hash the two phases of one event
give distinct keys; and an event eligible for both phases in one run over
fresh history fires both, producing exactly the two distinct keys (two
sends), the first never suppressing the second. -/
theorem C3_key_determinism_and_independence (h : String → String)
    (hinj : Function.Injective h) (e1 e2 : Cal.CalEvent) (now : Int)
    (phase : String) :
    (e1.name = e2.name → e1.dt = e2.dt →
      Cal.calKey h e1 phase = Cal.calKey h e2 phase) ∧
    Cal.calKey h e1 "T-4d" ≠ Cal.calKey h e1 "T-90m" ∧
    (e1.name ∈ Cal.MAJORS → 0 < Cal.minutes_until e1.dt now →
      Cal.minutes_until e1.dt now ≤ Cal.T90_MINUTES →
      (Cal.run_onceT h now [e1] ⟨[]⟩).1 =
        [Cal.calKey h e1 "T-4d", Cal.calKey h e1 "T-90m"]) := by
  have hne : Cal.calKey h e1 "T-4d" ≠ Cal.calKey h e1 "T-90m" := by
    intro hEq
    have hs := hinj hEq
    have hl := congrArg String.length hs
    simp only [Cal.calKeyStr, String.length_append] at hl
    have h4 : ("T-4d" : String).length = 4 := rfl
    have h90 : ("T-90m" : String).length = 5 := rfl
    rw [h4, h90] at hl
    omega
  refine ⟨?_, hne, ?_⟩
  · intro hn hd
    unfold Cal.calKey Cal.calKeyStr
    rw [hn, hd]
  · intro hmaj hpos hle
    have hfut : ¬e1.dt ≤ now := minutes_pos_not_past e1.dt now hpos
    have hA1 : (Cal.alert_T4d h now e1 ⟨[]⟩).1 = true := by
      rw [alert_T4d_fired_iff]
      refine ⟨⟨hmaj, hpos, ?_⟩, rfl⟩
      calc Cal.minutes_until e1.dt now ≤ Cal.T90_MINUTES := hle
        _ ≤ Cal.T4D_MINUTES := by norm_num [Cal.T90_MINUTES, Cal.T4D_MINUTES]
    have hA2 := alert_T4d_state_fired h now e1 ⟨[]⟩ hA1
    have hA : Cal.alert_T4d h now e1 ⟨[]⟩ =
        (true, Cal.mark_sent ⟨[]⟩ (Cal.calKey h e1 "T-4d") (1000 * now)) := by
      rw [Prod.ext_iff]
      exact ⟨hA1, hA2⟩
    have hB1 : (Cal.alert_T90 h now e1
        (Cal.mark_sent ⟨[]⟩ (Cal.calKey h e1 "T-4d") (1000 * now))).1 = true := by
      rw [alert_T90_fired_iff]
      refine ⟨⟨hpos, hle⟩, ?_⟩
      show dget (dset [] (Cal.calKey h e1 "T-4d") (1000 * now))
        (Cal.calKey h e1 "T-90m") = none
      rw [dget_dset_of_ne _ _ _ _ hne]
      rfl
    have hB2 := alert_T90_state_fired h now e1 _ hB1
    have hB : Cal.alert_T90 h now e1
        (Cal.mark_sent ⟨[]⟩ (Cal.calKey h e1 "T-4d") (1000 * now)) =
        (true, Cal.mark_sent
          (Cal.mark_sent ⟨[]⟩ (Cal.calKey h e1 "T-4d") (1000 * now))
          (Cal.calKey h e1 "T-90m") (1000 * now)) := by
      rw [Prod.ext_iff]
      exact ⟨hB1, hB2⟩
    simp only [Cal.run_onceT, Cal.calStep, if_neg hfut, hA, hB]
    simp

/-- C3 witness: for the concrete NFP event 90 minutes out, identity-equal
events give equal keys, the two phase keys differ, and a fresh run fires
both phases in order. -/
theorem C3_key_determinism_and_independence_witness :
    (Cal.calKey id ⟨"NFP", 5400, "Rule", "high"⟩ "T-4d" =
      Cal.calKey id ⟨"NFP", 5400, "BLS", "high"⟩ "T-4d") ∧
    (Cal.calKey id ⟨"NFP", 5400, "Rule", "high"⟩ "T-4d" ≠
      Cal.calKey id ⟨"NFP", 5400, "Rule", "high"⟩ "T-90m") ∧
    ((Cal.run_onceT id 0 [⟨"NFP", 5400, "Rule", "high"⟩] ⟨[]⟩).1 =
      [Cal.calKey id ⟨"NFP", 5400, "Rule", "high"⟩ "T-4d",
       Cal.calKey id ⟨"NFP", 5400, "Rule", "high"⟩ "T-90m"]) :=
  ⟨(C3_key_determinism_and_independence id Function.injective_id
      ⟨"NFP", 5400, "Rule", "high"⟩ ⟨"NFP", 5400, "BLS", "high"⟩ 0 "T-4d").1
      rfl rfl,
   (C3_key_determinism_and_independence id Function.injective_id
      ⟨"NFP", 5400, "Rule", "high"⟩ ⟨"NFP", 5400, "Rule", "high"⟩ 0 "T-4d").2.1,
   (C3_key_determinism_and_independence id Function.injective_id
      ⟨"NFP", 5400, "Rule", "high"⟩ ⟨"NFP", 5400, "Rule", "high"⟩ 0 "T-4d").2.2
      (by decide) (by decide) (by decide)⟩

/-- C2: for every event and instant, a phase is due iff its applicability
predicate holds and `low < minutes_until <= high` (exclusive lower bound,
inclusive upper bound): the short-horizon phase applies to every event with
high = 90, the heads-up phase only to MAJORS with high = 5760; an event at
`minutes_until = 0` never fires a future-looking phase, one at exactly the
high bound fires (fresh history), and one at high + 1 does not. -/
theorem C2_phase_window (h : String → String) (now : Int) (ev : Cal.CalEvent)
    (st : Cal.CalState) :
    ((Cal.alert_T90 h now ev st).1 = true ↔
      (0 < Cal.minutes_until ev.dt now ∧
        Cal.minutes_until ev.dt now ≤ Cal.T90_MINUTES) ∧
      Cal.already_sent st (Cal.calKey h ev "T-90m") = false) ∧
    ((Cal.alert_T4d h now ev st).1 = true ↔
      (ev.name ∈ Cal.MAJORS ∧ 0 < Cal.minutes_until ev.dt now ∧
        Cal.minutes_until ev.dt now ≤ Cal.T4D_MINUTES) ∧
      Cal.already_sent st (Cal.calKey h ev "T-4d") = false) ∧
    (Cal.minutes_until ev.dt now = 0 →
      (Cal.alert_T90 h now ev st).1 = false ∧
      (Cal.alert_T4d h now ev st).1 = false) ∧
    (Cal.minutes_until ev.dt now = Cal.T90_MINUTES →
      Cal.already_sent st (Cal.calKey h ev "T-90m") = false →
      (Cal.alert_T90 h now ev st).1 = true) ∧
    (Cal.minutes_until ev.dt now = Cal.T90_MINUTES + 1 →
      (Cal.alert_T90 h now ev st).1 = false) ∧
    (Cal.minutes_until ev.dt now = Cal.T4D_MINUTES + 1 →
      (Cal.alert_T4d h now ev st).1 = false) := by
  have hs : ∀ key, Cal.already_sent st key = false ↔ dget st.sent key = none := by
    intro key
    unfold Cal.already_sent
    cases dget st.sent key <;> simp
  refine ⟨?_, ?_, ?_, ?_, ?_, ?_⟩
  · rw [alert_T90_fired_iff, hs]
  · rw [alert_T4d_fired_iff, hs]
  · intro h0
    constructor
    · rw [Bool.eq_false_iff]
      intro hT
      rw [alert_T90_fired_iff] at hT
      omega
    · rw [Bool.eq_false_iff]
      intro hT
      rw [alert_T4d_fired_iff] at hT
      omega
  · intro hm hfresh
    rw [alert_T90_fired_iff, ← hs]
    refine ⟨⟨?_, ?_⟩, hfresh⟩ <;> rw [hm] <;> norm_num [Cal.T90_MINUTES]
  · intro hm
    rw [Bool.eq_false_iff]
    intro hT
    rw [alert_T90_fired_iff] at hT
    omega
  · intro hm
    rw [Bool.eq_false_iff]
    intro hT
    rw [alert_T4d_fired_iff] at hT
    omega

/-- C2 witness: at `minutes_until = 90` (the inclusive high bound) the
short-horizon phase fires on fresh history; at `minutes_until = 0` and at
`minutes_until = 91` it does not. -/
theorem C2_phase_window_witness :
    (Cal.alert_T90 id 0 ⟨"Jobless Claims", 5400, "Rule", "med"⟩ ⟨[]⟩).1 = true ∧
    (Cal.alert_T90 id 0 ⟨"CPI", 30, "BLS", "high"⟩ ⟨[]⟩).1 = false ∧
    (Cal.alert_T90 id 0 ⟨"CPI", 5460, "BLS", "high"⟩ ⟨[]⟩).1 = false :=
  ⟨(C2_phase_window id 0 ⟨"Jobless Claims", 5400, "Rule", "med"⟩ ⟨[]⟩).2.2.2.1
      (by decide) rfl,
   ((C2_phase_window id 0 ⟨"CPI", 30, "BLS", "high"⟩ ⟨[]⟩).2.2.1 (by decide)).1,
   (C2_phase_window id 0 ⟨"CPI", 5460, "BLS", "high"⟩ ⟨[]⟩).2.2.2.2.1
      (by decide)⟩


/-! ## GC sweep (watchtower) -/

theorem mem_gcSweep (sent : List (String × Int)) (now retention : Int)
    (k : String) (ts : Int) :
    (k, ts) ∈ Wt.gcSweep sent now retention ↔
      (k, ts) ∈ sent ∧ now - ts ≤ retention := by
  unfold Wt.gcSweep
  simp [List.mem_filter]

/-- C5: the sweep keeps exactly the records whose age is at most the
retention horizon: a record aged exactly `retention` is retained, one aged
`retention + 1` is removed, and membership after the sweep is membership
before it plus the age bound. -/
theorem C5_gc_retention_boundary (sent : List (String × Int))
    (now retention : Int) (k : String) (ts : Int) :
    ((k, ts) ∈ Wt.gcSweep sent now retention ↔
      (k, ts) ∈ sent ∧ now - ts ≤ retention) ∧
    (now - ts = retention → (k, ts) ∈ sent →
      (k, ts) ∈ Wt.gcSweep sent now retention) ∧
    (now - ts = retention + 1 → (k, ts) ∉ Wt.gcSweep sent now retention) := by
  refine ⟨mem_gcSweep sent now retention k ts, ?_, ?_⟩
  · intro hb hm
    exact (mem_gcSweep sent now retention k ts).mpr ⟨hm, by omega⟩
  · intro hb hmem
    have := ((mem_gcSweep sent now retention k ts).mp hmem).2
    omega

/-- C5 witness: at `now = 43200000` ms with the 12-hour retention,
the record fired at 0 (age exactly the horizon) survives the sweep and the
record fired at -1 (age horizon + 1) is swept. -/
theorem C5_gc_retention_boundary_witness :
    ("a", 0) ∈ Wt.gcSweep [("a", 0), ("b", -1)] 43200000
      (Wt.h_to_ms Wt.DEDUPE_HOURS) ∧
    ("b", -1) ∉ Wt.gcSweep [("a", 0), ("b", -1)] 43200000
      (Wt.h_to_ms Wt.DEDUPE_HOURS) :=
  ⟨(C5_gc_retention_boundary [("a", 0), ("b", -1)] 43200000
      (Wt.h_to_ms Wt.DEDUPE_HOURS) "a" 0).2.1
      (by norm_num [Wt.h_to_ms, Wt.DEDUPE_HOURS]) (by decide),
   (C5_gc_retention_boundary [("a", 0), ("b", -1)] 43200000
      (Wt.h_to_ms Wt.DEDUPE_HOURS) "b" (-1)).2.2
      (by norm_num [Wt.h_to_ms, Wt.DEDUPE_HOURS])⟩

/-- C6 counterexample: the calendar engine has no GC sweep at all, so the
state persisted at the end of one of its runs (here: one day's worth of
seconds after a record stamped 0) still holds that record, whose age
exceeds the 12-hour retention horizon — the claim that every engine
invocation sweeps is false. -/
theorem C6_counterexample :
    ("K", 0) ∈ (Cal.run_once id 86400 [] ⟨[("K", 0)]⟩).sent ∧
    1000 * 86400 - 0 > Wt.h_to_ms Wt.DEDUPE_HOURS := by
  constructor
  · simp [Cal.run_once, Cal.run_onceT]
  · norm_num [Wt.h_to_ms, Wt.DEDUPE_HOURS]

/-- C6 amended: the watchtower engine does sweep unconditionally on every
invocation — independently of whether anything fired — so its persisted
state never holds a record older than the retention horizon and `last_gc`
is stamped with the run instant; the calendar engine performs no GC
(its sent map is never pruned). -/
theorem C6_watchtower_gc_every_run (h : String → String) (now : Int)
    (st : Wt.WtState) (feeds : List (String × List Wt.Entry))
    (post : Wt.Entry → Except String Unit) (k : String) (ts : Int)
    (hmem : (k, ts) ∈ (Wt.wtRun h now st feeds post).sent) :
    now - ts ≤ Wt.h_to_ms Wt.DEDUPE_HOURS ∧
    (Wt.wtRun h now st feeds post).last_gc = now := by
  constructor
  · simp only [Wt.wtRun] at hmem
    exact ((mem_gcSweep _ now (Wt.h_to_ms Wt.DEDUPE_HOURS) k ts).mp hmem).2
  · rfl

/-- C6 witness: a concrete watchtower run (no feeds, one fresh record)
keeps the record, and the theorem yields its age bound and the `last_gc`
stamp. -/
theorem C6_watchtower_gc_every_run_witness :
    (10 : Int) - 5 ≤ Wt.h_to_ms Wt.DEDUPE_HOURS ∧
    (Wt.wtRun id 10 ⟨[("a", 5)], 0⟩ [] (fun _ => .ok ())).last_gc = 10 :=
  C6_watchtower_gc_every_run id 10 ⟨[("a", 5)], 0⟩ [] (fun _ => .ok ())
    "a" 5 (by simp [Wt.wtRun, Wt.gcSweep]; norm_num [Wt.h_to_ms, Wt.DEDUPE_HOURS])

/-! ## Dispatch failure behavior (C4) -/

/-- C4 counterexample: in the hype engine a dispatch failure leaves the
item's key unrecorded.  With a dispatcher that fails on item "u1" and
succeeds on item "u2", the run does not abort (u2 is still sent), but the
persisted seen set is exactly ["u2"]: the failed item's key "u1" is absent,
contradicting the claim that the key is marked fired despite the error. -/
theorem C4_counterexample :
    (Hype.sendLoop (fun it => it.uid != "u1") [⟨"u1", 1⟩, ⟨"u2", 1⟩] 0 []).2
      = ["u2"] ∧
    "u1" ∉ (Hype.sendLoop (fun it => it.uid != "u1")
      [⟨"u1", 1⟩, ⟨"u2", 1⟩] 0 []).2 := by
  have hrun : Hype.sendLoop (fun it => it.uid != "u1")
      [⟨"u1", 1⟩, ⟨"u2", 1⟩] 0 [] = (1, ["u2"]) := by
    simp only [Hype.sendLoop, Hype.MIN_SCORE_TO_ALERT, Hype.MAX_ITEMS_PER_RUN]
    norm_num
    decide
  rw [hrun]
  simp

/-- C4 amended: a dispatch failure never aborts the run in either engine.
In watchtower the key is still marked fired — the result of the item loop
does not depend on the POST outcome at all, because `send_telegram` swallows
the error before the unconditional `sent[uid] = now` — whereas in the hype
engine a failed send leaves the loop state untouched (the uid is NOT added
to seen) and processing simply continues with the remaining items. -/
theorem C4_dispatch_failure_behavior
    (dispatch : Hype.Item → Bool) (it : Hype.Item) (rest : List Hype.Item)
    (c : Nat) (seen : List String)
    (h : String → String) (now : Int) (sent : List (String × Int))
    (label : String) (e : Wt.Entry) (r r' : Except String Unit) :
    (¬it.score < Hype.MIN_SCORE_TO_ALERT → ¬Hype.MAX_ITEMS_PER_RUN ≤ c →
      dispatch it = false →
      Hype.sendLoop dispatch (it :: rest) c seen =
        Hype.sendLoop dispatch rest c seen) ∧
    (Wt.processItem h now sent label e r =
      Wt.processItem h now sent label e r') ∧
    ((Wt.processItem h now sent label e r).1 = Wt.Verdict.alerted →
      dget (Wt.processItem h now sent label e r).2
        (Wt.wtUid h label (Wt.pyStrip e.title) (Wt.pyStrip e.link)) = some now) := by
  refine ⟨?_, rfl, ?_⟩
  · intro h1 h2 h3
    simp only [Hype.sendLoop]
    rw [if_neg h1, if_neg h2, if_neg (by simp [h3])]
  · intro halert
    simp only [Wt.processItem] at halert ⊢
    split_ifs at halert ⊢ with hrec hdup hsc
    all_goals
      first
        | exact absurd halert (by decide)
        | simpa using dget_dset_self sent
            (Wt.wtUid h label (Wt.pyStrip e.title) (Wt.pyStrip e.link)) now

/-- C4 witness: a below-failure step of the hype loop skips the marking and
continues; a concrete alerted watchtower item with an erroring POST still
records its uid with the run timestamp. -/
theorem C4_dispatch_failure_behavior_witness :
    (Hype.sendLoop (fun _ => false) [⟨"u", 1⟩] 0 [] =
      Hype.sendLoop (fun _ => false) [] 0 []) ∧
    (Wt.processItem id 10 []
      "SEC – Press Releases"
      ⟨"SEC sues exchange over hack", "http://x", "", some 5, none, []⟩
      (.error "boom") =
     Wt.processItem id 10 []
      "SEC – Press Releases"
      ⟨"SEC sues exchange over hack", "http://x", "", some 5, none, []⟩
      (.ok ())) ∧
    (dget (Wt.processItem id 10 []
      "SEC – Press Releases"
      ⟨"SEC sues exchange over hack", "http://x", "", some 5, none, []⟩
      (.error "boom")).2
      (Wt.wtUid id "SEC – Press Releases" "SEC sues exchange over hack"
        "http://x") = some 10) := by
  refine ⟨?_, ?_, ?_⟩
  · exact (C4_dispatch_failure_behavior (fun _ => false) ⟨"u", 1⟩ [] 0 []
      id 10 [] "SEC – Press Releases"
      ⟨"SEC sues exchange over hack", "http://x", "", some 5, none, []⟩
      (.error "boom") (.ok ())).1 (by norm_num [Hype.MIN_SCORE_TO_ALERT])
      (by norm_num [Hype.MAX_ITEMS_PER_RUN]) rfl
  · exact (C4_dispatch_failure_behavior (fun _ => false) ⟨"u", 1⟩ [] 0 []
      id 10 [] "SEC – Press Releases"
      ⟨"SEC sues exchange over hack", "http://x", "", some 5, none, []⟩
      (.error "boom") (.ok ())).2.1
  · have := (C4_dispatch_failure_behavior (fun _ => false) ⟨"u", 1⟩ [] 0 []
      id 10 [] "SEC – Press Releases"
      ⟨"SEC sues exchange over hack", "http://x", "", some 5, none, []⟩
      (.error "boom") (.ok ())).2.2 (by decide)
    simpa using this

/-! ## Aggregate-percentage gate (sentiment_summary) -/

/-- Round-to-nearest is at most the exact ratio plus one half:
`2*t*round(100*b/t) ≤ 200*b + t`. -/
theorem pyRound100_le (b t : Nat) (ht : 0 < t) :
    2 * t * Senti.pyRound100 b t ≤ 200 * b + t := by
  have hdm : (100 * b) / t * t + (100 * b) % t = 100 * b :=
    Nat.div_add_mod' (100 * b) t
  have hr : (100 * b) % t < t := Nat.mod_lt _ ht
  simp only [Senti.pyRound100]
  set q := (100 * b) / t with hq
  set r := (100 * b) % t with hrr
  split_ifs with h1 h2 h3
  · calc 2 * t * q = 2 * (q * t) := by ring
      _ ≤ 2 * (q * t) + 2 * r := Nat.le_add_right _ _
      _ = 2 * (q * t + r) := by ring
      _ = 2 * (100 * b) := by rw [hdm]
      _ = 200 * b := by ring
      _ ≤ 200 * b + t := Nat.le_add_right _ _
  · calc 2 * t * (q + 1) = 2 * (q * t) + 2 * t := by ring
      _ ≤ 2 * (q * t) + 2 * r + t := by omega
      _ = 2 * (q * t + r) + t := by ring
      _ = 2 * (100 * b) + t := by rw [hdm]
      _ = 200 * b + t := by ring
  · calc 2 * t * q = 2 * (q * t) := by ring
      _ ≤ 2 * (q * t) + 2 * r := Nat.le_add_right _ _
      _ = 2 * (q * t + r) := by ring
      _ = 2 * (100 * b) := by rw [hdm]
      _ = 200 * b := by ring
      _ ≤ 200 * b + t := Nat.le_add_right _ _
  · calc 2 * t * (q + 1) = 2 * (q * t) + 2 * t := by ring
      _ ≤ 2 * (q * t) + 2 * r + t := by omega
      _ = 2 * (q * t + r) + t := by ring
      _ = 2 * (100 * b) + t := by rw [hdm]
      _ = 200 * b + t := by ring

/-- Two rounded shares of one total sum to at most 101. -/
theorem pyRound100_pair_le (x y t : Nat) (ht : 0 < t) (hxy : x + y ≤ t) :
    Senti.pyRound100 x t + Senti.pyRound100 y t ≤ 101 := by
  have hx := pyRound100_le x t ht
  have hy := pyRound100_le y t ht
  have hsum : 2 * t * (Senti.pyRound100 x t + Senti.pyRound100 y t) ≤
      2 * t * 101 := by
    calc 2 * t * (Senti.pyRound100 x t + Senti.pyRound100 y t)
        = 2 * t * Senti.pyRound100 x t + 2 * t * Senti.pyRound100 y t := by ring
      _ ≤ (200 * x + t) + (200 * y + t) := Nat.add_le_add hx hy
      _ ≤ 200 * t + 2 * t := by omega
      _ = 2 * t * 101 := by ring
  exact Nat.le_of_mul_le_mul_left hsum (by omega)

/-- The two reported percentages of one coin sum to at most 101. -/
theorem bull_bear_pct_bound (c : Senti.CoinCounts) (ht : 0 < Senti.total c) :
    Senti.bull_pct c + Senti.bear_pct c ≤ 101 :=
  pyRound100_pair_le c.bull c.bear (Senti.total c) ht
    (by unfold Senti.total; omega)

/-- C7: per subject the aggregate gate fires iff `total >= minMentions` and
`max(bullPct, bearPct) >= strongThresholdPct` with the rounded percentages;
a subject one mention short never fires, one at the floor with
`bullPct = 75` fires, one at `bullPct = 74` with `bearPct` below threshold
does not, and the reported line is always the dominant side. -/
theorem C7_aggregate_gate (c : Senti.CoinCounts) :
    (Senti.gateFires c = true ↔
      Senti.MIN_MENTIONS_PER_COIN ≤ Senti.total c ∧
      Senti.STRONG_THRESHOLD_PCT ≤ max (Senti.bull_pct c) (Senti.bear_pct c)) ∧
    (Senti.total c = Senti.MIN_MENTIONS_PER_COIN - 1 →
      Senti.gateFires c = false) ∧
    (Senti.total c = Senti.MIN_MENTIONS_PER_COIN →
      Senti.bull_pct c = Senti.STRONG_THRESHOLD_PCT →
      Senti.gateFires c = true) ∧
    (Senti.bull_pct c = Senti.STRONG_THRESHOLD_PCT - 1 →
      Senti.bear_pct c < Senti.STRONG_THRESHOLD_PCT →
      Senti.gateFires c = false) ∧
    (∀ p, Senti.gateReport c = some (true, p) →
      Senti.bear_pct c < Senti.bull_pct c) ∧
    (∀ p, Senti.gateReport c = some (false, p) →
      Senti.bull_pct c < Senti.bear_pct c) := by
  have hiff : Senti.gateFires c = true ↔
      Senti.MIN_MENTIONS_PER_COIN ≤ Senti.total c ∧
      Senti.STRONG_THRESHOLD_PCT ≤ max (Senti.bull_pct c) (Senti.bear_pct c) := by
    unfold Senti.gateFires Senti.gateReport
    split_ifs with ha hb hc <;>
      simp_all [le_max_iff]
  refine ⟨hiff, ?_, ?_, ?_, ?_, ?_⟩
  · intro h3
    rw [Bool.eq_false_iff]
    intro hfire
    have := (hiff.mp hfire).1
    simp [Senti.MIN_MENTIONS_PER_COIN] at this h3
    omega
  · intro h4 h75
    refine hiff.mpr ⟨by omega, ?_⟩
    rw [le_max_iff]
    left
    omega
  · intro h74 hbe
    rw [Bool.eq_false_iff]
    intro hfire
    have := (hiff.mp hfire).2
    rw [le_max_iff] at this
    simp [Senti.STRONG_THRESHOLD_PCT] at this h74 hbe
    omega
  · intro p hrep
    by_cases ha : Senti.total c < Senti.MIN_MENTIONS_PER_COIN
    · simp [Senti.gateReport, ha] at hrep
    · by_cases hb : Senti.STRONG_THRESHOLD_PCT ≤ Senti.bull_pct c
      · have ht : 0 < Senti.total c := by
          simp [Senti.MIN_MENTIONS_PER_COIN] at ha
          omega
        have hbd := bull_bear_pct_bound c ht
        simp [Senti.STRONG_THRESHOLD_PCT] at hb
        omega
      · by_cases hc : Senti.STRONG_THRESHOLD_PCT ≤ Senti.bear_pct c
        · simp [Senti.gateReport, ha, hb, hc] at hrep
        · simp [Senti.gateReport, ha, hb, hc] at hrep
  · intro p hrep
    by_cases ha : Senti.total c < Senti.MIN_MENTIONS_PER_COIN
    · simp [Senti.gateReport, ha] at hrep
    · by_cases hb : Senti.STRONG_THRESHOLD_PCT ≤ Senti.bull_pct c
      · simp [Senti.gateReport, ha, hb] at hrep
      · by_cases hc : Senti.STRONG_THRESHOLD_PCT ≤ Senti.bear_pct c
        · simp [Senti.STRONG_THRESHOLD_PCT] at hb hc
          omega
        · simp [Senti.gateReport, ha, hb, hc] at hrep

/-- C7 witness: 3 bullish of 4 mentions (75%) fires; 3 of 3 (100%) does not
for lack of samples; 37 bullish of 50 mentions (74%) does not fire. -/
theorem C7_aggregate_gate_witness :
    Senti.gateFires ⟨3, 1, 0⟩ = true ∧
    Senti.gateFires ⟨3, 0, 0⟩ = false ∧
    Senti.gateFires ⟨37, 0, 13⟩ = false :=
  ⟨(C7_aggregate_gate ⟨3, 1, 0⟩).2.2.1 (by decide) (by decide),
   (C7_aggregate_gate ⟨3, 0, 0⟩).2.1 (by decide),
   (C7_aggregate_gate ⟨37, 0, 13⟩).2.2.2.1 (by decide) (by decide)⟩

/-! ## State loading (C8), startup checks (C9), unparsable timestamps (C10) -/

/-- C8 counterexample: on an unreadable/corrupt file the calendar loader
returns `{"sent": {}}` — not the claimed `{"sent": {}, "last_gc": 0}` — and
on a schema-mismatched but well-formed JSON file (here `[]`) the watchtower
loader returns that value unchanged instead of the fresh state. -/
theorem C8_counterexample :
    StateFile.calendar_load_state (some none) ≠ StateFile.wtFreshState ∧
    StateFile.watchtower_load_state (some (.arr [])) ≠ StateFile.wtFreshState := by
  constructor
  · intro hEq
    simp [StateFile.calendar_load_state, StateFile.calFreshState,
      StateFile.wtFreshState] at hEq
  · intro hEq
    simp [StateFile.watchtower_load_state, StateFile.wtFreshState] at hEq

/-- C8 amended: loading never raises (both loaders are total); a missing or
unparsable file yields each script's own fresh empty history —
`{"sent": {}}` for the calendar watcher, `{"sent": {}, "last_gc": 0}` for
watchtower — and a file that parses as JSON of the wrong shape is returned
as-is, unvalidated. -/
theorem C8_load_state_total_fresh (j : Jsonish) :
    StateFile.calendar_load_state none = StateFile.calFreshState ∧
    StateFile.calendar_load_state (some none) = StateFile.calFreshState ∧
    StateFile.watchtower_load_state none = StateFile.wtFreshState ∧
    StateFile.calendar_load_state (some (some j)) = j ∧
    StateFile.watchtower_load_state (some j) = j :=
  ⟨rfl, rfl, rfl, rfl, rfl⟩

/-- C9 counterexample: the legacy calender_watcher.py performs no
credential check at startup: with both variables absent it starts
successfully and its dispatcher builds a URL containing the Python
rendering "None" of the missing token, instead of exiting fatally. -/
theorem C9_counterexample :
    Startup.legacy_startup none none = .ok (none, none) ∧
    Startup.failsFatal (Startup.legacy_startup none none) = false ∧
    Startup.legacy_send_url none =
      "https://api.telegram.org/botNone/sendMessage" :=
  ⟨rfl, rfl, rfl⟩

/-- C9 amended: the four current scripts fail fatally at module top (before
any I/O) exactly when the bot credential or the chat id is unset or empty;
the legacy calender_watcher.py has no such check and never fails at
startup. -/
theorem C9_startup_config_check (bot chat : Option String) :
    (Startup.failsFatal (Startup.calendar_startup bot chat) = true ↔
      Startup.truthy bot = false ∨ Startup.truthy chat = false) ∧
    (Startup.failsFatal (Startup.watchtower_startup bot chat) = true ↔
      Startup.truthy bot = false ∨ Startup.truthy chat = false) ∧
    (Startup.failsFatal (Startup.hype_startup bot chat) = true ↔
      Startup.truthy bot = false ∨ Startup.truthy chat = false) ∧
    Startup.failsFatal (Startup.legacy_startup bot chat) = false := by
  cases hb : Startup.truthy bot <;> cases hc : Startup.truthy chat <;>
    simp [Startup.calendar_startup, Startup.watchtower_startup,
      Startup.hype_startup, Startup.legacy_startup, Startup.failsFatal, hb, hc]

/-- C9 witness: missing token, empty token and missing chat id each trip
the respective script's fatal check; the legacy script starts anyway. -/
theorem C9_startup_config_check_witness :
    Startup.failsFatal (Startup.calendar_startup none (some "c")) = true ∧
    Startup.failsFatal (Startup.watchtower_startup (some "") (some "c")) = true ∧
    Startup.failsFatal (Startup.hype_startup (some "b") none) = true ∧
    Startup.failsFatal (Startup.legacy_startup none none) = false :=
  ⟨(C9_startup_config_check none (some "c")).1.mpr (Or.inl rfl),
   (C9_startup_config_check (some "") (some "c")).2.1.mpr (Or.inl (by decide)),
   (C9_startup_config_check (some "b") none).2.2.1.mpr (Or.inr rfl),
   (C9_startup_config_check none none).2.2.2⟩

/-- The string-field fallback of the timestamp parser yields the sentinel 0
when no field parses. -/
theorem firstParsedDate_eq_zero (l : List (Option Int))
    (hall : ∀ x ∈ l, x = none) : Wt.firstParsedDate l = 0 := by
  induction l with
  | nil => rfl
  | cons hd tl ih =>
    cases hd with
    | none =>
      have := ih (fun x hx => hall x (List.mem_cons_of_mem _ hx))
      simpa [Wt.firstParsedDate] using this
    | some v =>
      have := hall (some v) (by simp)
      simp at this

/-- C10: an item whose publication timestamp cannot be parsed is never
discarded by the recency filter: the watchtower parser returns the sentinel
0, `is_recent` accepts the sentinel, the item loop does not skip the item
as old and treats it exactly like an item published at the current instant
(same dedupe and scoring outcome); the hype parser substitutes the current
instant, which always passes the lookback cutoff. -/
theorem C10_unparsable_timestamp_not_discarded (now : Int) (e : Wt.Entry)
    (sent : List (String × Int)) (h : String → String) (label : String)
    (r : Except String Unit)
    (hp : e.published_parsed = none) (hu : e.updated_parsed = none)
    (hs : ∀ x ∈ e.dateStrings, x = none) :
    Wt.parse_pub_ms e = 0 ∧
    Wt.is_recent now (Wt.parse_pub_ms e) = true ∧
    (Wt.processItem h now sent label e r).1 ≠ Wt.Verdict.skippedOld ∧
    Wt.processItem h now sent label e r =
      Wt.processItem h now sent label
        { e with published_parsed := some now } r ∧
    Hype.parse_when now none none = now ∧
    ¬(Hype.parse_when now none none < now - Hype.RECENT_HOURS * 3600) := by
  have hpub : Wt.parse_pub_ms e = 0 := by
    unfold Wt.parse_pub_ms
    rw [hp, hu]
    exact firstParsedDate_eq_zero e.dateStrings hs
  have hrec : Wt.is_recent now (Wt.parse_pub_ms e) = true := by
    rw [hpub]; rfl
  have hpub2 : Wt.parse_pub_ms { e with published_parsed := some now } = now := rfl
  have hrecnow : Wt.is_recent now now = true := by
    unfold Wt.is_recent
    split_ifs with h0
    · rfl
    · simp [Wt.h_to_ms, Wt.RECENT_HOURS]
  refine ⟨hpub, hrec, ?_, ?_, rfl, ?_⟩
  · simp only [Wt.processItem, hrec, Bool.true_eq_false, if_false]
    split_ifs <;> simp
  · simp only [Wt.processItem, hrec, hpub2, hrecnow]
  · simp only [Hype.parse_when, Hype.RECENT_HOURS]
    omega

/-- C10 witness: a concrete entry with no parsable date at instant 7 gets
the sentinel, passes the recency check, is not skipped as old, and behaves
like the same entry published at 7. -/
theorem C10_unparsable_timestamp_not_discarded_witness :
    Wt.parse_pub_ms ⟨"t", "l", "s", none, none, [none, none]⟩ = 0 ∧
    Wt.is_recent 7 (Wt.parse_pub_ms ⟨"t", "l", "s", none, none, [none, none]⟩)
      = true ∧
    (Wt.processItem id 7 [] "X" ⟨"t", "l", "s", none, none, [none, none]⟩
      (.ok ())).1 ≠ Wt.Verdict.skippedOld ∧
    Wt.processItem id 7 [] "X" ⟨"t", "l", "s", none, none, [none, none]⟩
      (.ok ()) =
      Wt.processItem id 7 [] "X" ⟨"t", "l", "s", some 7, none, [none, none]⟩
      (.ok ()) ∧
    Hype.parse_when 7 none none = 7 ∧
    ¬(Hype.parse_when 7 none none < 7 - Hype.RECENT_HOURS * 3600) :=
  C10_unparsable_timestamp_not_discarded 7
    ⟨"t", "l", "s", none, none, [none, none]⟩ [] id "X" (.ok ())
    rfl rfl (by decide)
